import Mathlib

/-!
Verification of the go-logtransport log formatter and dispatch pipeline.

The development shallowly embeds the canonical sources:
`log/logger.go` (Logger interface, `logger.log`, `D`/`E`/`F`/`I`,
`SetArrayThreshold`), `log/log_util.go` (`fmtDebug`, `fmtDebugData`,
`fmtKnownTypes`, `parseESModels`) and `Init`.
Pure functions become Lean functions; the output writer and the publish
channel become explicit result values; the process environment variable
becomes an explicit argument read per call.  Caller-location and timestamp
strings (runtime.Caller / time.Now) are cosmetic and replaced by fixed
placeholder tags.
-/

/-- A Go value passed as additional debug payload (`data ...interface\x7b\x7d`),
restricted to the scalar and ordered-sequence shapes exercised by the
rendering claims.  An `arr` carries the reflected type-name string
(`reflect.TypeOf(d).String()`). -/
inductive GoVal where
  | vstr : String → GoVal
  | vint : Int → GoVal
  | arr : String → List GoVal → GoVal

/-- JSON string escaping used by Go's `json.Marshal` for the string scalars
appearing in this development (quote, backslash and newline). -/
def escapeChar (c : Char) : String :=
  if c = '"' then "\\\"" else if c = '\\' then "\\\\"
  else if c = '\n' then "\\n" else String.singleton c

/-- `json.Marshal` of a Go string: a quoted, escaped JSON string. -/
def jsonQuote (s : String) : String :=
  "\"" ++ String.join (s.toList.map escapeChar) ++ "\""

/-- The truncation notice from `fmtDebugData` in `log/log_util.go`:
`"Array (length: %d) exceeds array-length threshold of %d.\n"`. -/
def truncNotice (n t : Int) : String :=
  "Array (length: " ++ toString n ++ ") exceeds array-length threshold of "
    ++ toString t ++ ".\n"

/-- The element loop body of the slice/array branch of `fmtDebugData`:
each already-rendered element is emitted under a `"=> Index %d: "` label,
indices counting up from the given start. -/
def indexJoin : Nat → List String → String
  | _, [] => ""
  | i, s :: ss =>
      "-----\n" ++ "=> Index " ++ toString i ++ ": " ++ s ++ "\n"
        ++ indexJoin (i + 1) ss

mutual
/-- `fmtDebugData` from `log/log_util.go`.  The slice/array branch emits the
truncation notice instead of the type-name header when
`arrThreshold > 0 && arrLength > arrThreshold`, then clamps the loop bound by
`if arrLength > arrThreshold \x7b arrLength = arrThreshold \x7d` (with no
positivity guard) and renders the surviving prefix element-wise under
`=> Index i` labels.  Scalars take the default branch:
`fmtKnownTypes` is the identity on them and `json.Marshal` yields their
JSON text, prefixed by the reflected type name.  Elements are rendered
before the prefix is taken; since rendering is element-wise this equals the
source's clamp-then-render loop. -/
def fmtDebugData : GoVal → Int → String
  | .vstr s, _ => "string:\n" ++ jsonQuote s
  | .vint i, _ => "int:\n" ++ toString i
  | .arr tn elems, t =>
      let n : Int := (elems.length : Int)
      let header := if 0 < t ∧ t < n then truncNotice n t else tn ++ ":\n"
      let rendered := fmtDataList elems t
      let kept := if t < n then rendered.take t.toNat else rendered
      header ++ indexJoin 0 kept ++ "-----"

/-- Element-wise rendering of a payload list (the recursive calls
`fmtDebugData(v.Index(i).Interface(), arrThreshold)`). -/
def fmtDataList : List GoVal → Int → List String
  | [], _ => []
  | e :: es, t => fmtDebugData e t :: fmtDataList es t
end

/-- Taking a prefix of the rendered elements is the same as rendering a
prefix of the payload list. -/
theorem fmtDataList_take (xs : List GoVal) (t : Int) (k : Nat) :
    (fmtDataList xs t).take k = fmtDataList (xs.take k) t := by
  induction xs generalizing k with
  | nil => simp [fmtDataList]
  | cons x xs ih =>
      cases k with
      | zero => simp [fmtDataList]
      | succ k => simp [fmtDataList, ih]

/-- Length of the rendered list equals the payload length. -/
theorem fmtDataList_length (xs : List GoVal) (t : Int) :
    (fmtDataList xs t).length = xs.length := by
  induction xs with
  | nil => rfl
  | cons x xs ih => simp [fmtDataList, ih]

/-- C2: rendering a slice/array of length N with positive array-threshold T:
if N > T, the output is the truncation notice stating N and T, followed by
exactly the first T elements, each labeled `=> Index i` by its original
index; if N ≤ T, the output is the type-name header followed by all N
elements, with no truncation notice. -/
theorem c2_array_truncation (tn : String) (xs : List GoVal) (t : Int)
    (ht : 0 < t) :
    (t < (xs.length : Int) →
      fmtDebugData (.arr tn xs) t
        = truncNotice (xs.length : Int) t
            ++ indexJoin 0 (fmtDataList (xs.take t.toNat) t) ++ "-----")
    ∧ ((xs.length : Int) ≤ t →
      fmtDebugData (.arr tn xs) t
        = tn ++ ":\n" ++ indexJoin 0 (fmtDataList xs t) ++ "-----") := by
  constructor
  · intro h
    simp [fmtDebugData, ht, h, fmtDataList_take]
  · intro h
    have h2 : ¬ (t < (xs.length : Int)) := not_lt.mpr h
    simp [fmtDebugData, h2]

/-- Witness for C2 at a 3-element array with threshold 2 (truncating branch). -/
theorem c2_array_truncation_witness :
    fmtDebugData (.arr "[]int" [.vint 1, .vint 2, .vint 3]) 2
      = truncNotice 3 2
          ++ indexJoin 0 (fmtDataList [.vint 1, .vint 2] 2) ++ "-----" :=
  (c2_array_truncation "[]int" [.vint 1, .vint 2, .vint 3] 2 (by decide)).1
    (by decide)

/-- C3 counterexample: with threshold 0 and a 1-element array, the renderer
emits no element at all, while the claim requires all 1 element rendered. -/
theorem c3_counterexample :
    fmtDebugData (.arr "[]int" [.vint 7]) 0 = "[]int:\n-----"
    ∧ fmtDebugData (.arr "[]int" [.vint 7]) 0
        ≠ "[]int:\n" ++ indexJoin 0 (fmtDataList [.vint 7] 0) ++ "-----" := by
  constructor
  · rfl
  · decide

/-- C3 amended: for every slice/array of length N > 0 and non-positive
threshold T ≤ 0, no truncation notice is emitted (the type-name header is
kept), but the unguarded clamp `if arrLength > arrThreshold` sets the loop
bound to T ≤ 0, so zero elements are rendered rather than all N. -/
theorem c3_nonpositive_threshold (tn : String) (xs : List GoVal) (t : Int)
    (ht : t ≤ 0) (hx : 0 < xs.length) :
    fmtDebugData (.arr tn xs) t = tn ++ ":\n" ++ "-----" := by
  have h1 : ¬ (0 < t) := not_lt.mpr ht
  have h2 : t < (xs.length : Int) :=
    lt_of_le_of_lt ht (by exact_mod_cast hx)
  have h3 : t.toNat = 0 := Int.toNat_of_nonpos ht
  simp [fmtDebugData, h1, h2, h3, indexJoin, String.append_empty]

/-- Witness for the amended C3 at a 1-element array with threshold 0. -/
theorem c3_nonpositive_threshold_witness :
    fmtDebugData (.arr "[]int" [.vint 7]) 0 = "[]int" ++ ":\n" ++ "-----" :=
  c3_nonpositive_threshold "[]int" [.vint 7] 0 (by decide) (by decide)

/-- `Entry` from `log/logger.go` (the canonical version, with a single
`Action` classification field). -/
structure Entry where
  description : String
  errorCode : Int
  action : String
  serviceName : String
deriving DecidableEq, Repr

/-- `model.LogEntry` as populated by this repository: the `Entry` fields plus
the severity level string set by `D`/`E`/`F`/`I`. -/
structure LogEntry where
  action : String
  description : String
  errorCode : Int
  level : String
  serviceName : String
deriving DecidableEq, Repr

/-- The fields of the `logger` struct in `log/logger.go`.  The output writer
and the `logChan` publish channel are effects and are captured per call in
`LogResult` instead. -/
structure LoggerState where
  enableOutput : Bool
  arrThreshold : Int
  action : String
  svcName : String
deriving DecidableEq, Repr

/-- The effects of one `logger.log` call: the byte strings written to the
output writer, in order, and the entry pushed onto `logChan`
(`none` when the entry is dropped). -/
structure LogResult where
  outputs : List String
  published : Option LogEntry
deriving DecidableEq, Repr

/-- Placeholder for the cosmetic `runtime.Caller` file and line header of
`fmtDebug` (the `ok` fallback text of the source). -/
def callerTag : String := "???:-1"

/-- Placeholder for the cosmetic `time.Now` timestamp prefix of `fmtDebug`. -/
def timeTag : String := "2020/01/01 00:00:00"

/-- The per-payload loop of `fmtDebug` in `log/log_util.go`: each payload is
rendered by `fmtDebugData` under a `"==> Data %d: "` label between
separator lines. -/
def dataJoin : Nat → Int → List GoVal → String
  | _, _, [] => ""
  | i, t, d :: ds =>
      "--------------\n" ++ "==> Data " ++ toString i ++ ": "
        ++ fmtDebugData d t ++ "\n" ++ dataJoin (i + 1) t ds

/-- `fmtDebug` from `log/log_util.go`.  Its error result is always nil in the
canonical source, so it is embedded as a plain `String`; the caller-location
and timestamp strings are cosmetic placeholders. -/
def fmtDebug (description : String) (arrThreshold : Int)
    (data : List GoVal) : String :=
  let outStr := callerTag ++ ": ===> " ++ description
  if data.isEmpty then outStr ++ "\n========================"
  else
    "\n" ++ timeTag ++ " " ++ outStr ++ "\n========================\n"
      ++ dataJoin 0 arrThreshold data
      ++ "--------------\n" ++ "========================"

/-- `LogLevelEnvVar`, the environment variable holding the configured level. -/
def LogLevelEnvVar : String := "LOG_LEVEL"

/-- The invalid-configuration message written to the output writer by
`logger.log` in `log/logger.go`. -/
def logLevelWarning : String :=
  LogLevelEnvVar ++ " environment variable missing or set to invalid value. "
    ++ "Valid levels are: ERROR, INFO and DEBUG. " ++ "INFO level will be used.\n"

/-- The configured-level validity test of `logger.log`:
`level != "INFO" && level != "ERROR" && level != "DEBUG" && level != "NONE"`. -/
def invalidLevel (level : String) : Bool :=
  level != "INFO" && level != "ERROR" && level != "DEBUG" && level != "NONE"

/-- The level actually used by `logger.log`: an unrecognized or unset value
is replaced by `"INFO"`. -/
def effectiveLevel (level : String) : String :=
  if invalidLevel level then "INFO" else level

/-- `logger.log` from `log/logger.go`: the configured level is read (passed
here as `envLevel`), normalized, the filter switch is applied, defaults are
filled, DEBUG formatting rewrites the description, and the entry is written
to the output writer (preceded by the misconfiguration warning when the
configured value was invalid) and pushed onto the publish channel. -/
def logStep (l : LoggerState) (envLevel : String) (entry : LogEntry)
    (data : List GoVal) : LogResult :=
  let level := effectiveLevel envLevel
  if level = "NONE" then { outputs := [], published := none }
  else if level = "INFO" ∧ entry.level = "DEBUG" then
    { outputs := [], published := none }
  else if level = "ERROR" ∧ entry.level ≠ "ERROR" then
    { outputs := [], published := none }
  else
    let e1 := if entry.serviceName = "" then
      { entry with serviceName := l.svcName } else entry
    let e2 := if e1.action = "" then { e1 with action := l.action } else e1
    let e3 := if level = "DEBUG" then
      { e2 with description := fmtDebug e2.description l.arrThreshold data }
      else e2
    let e4 := { e3 with description := e3.description ++ "\n" }
    let outputs := if l.enableOutput then
      (if invalidLevel envLevel then [logLevelWarning] else [])
        ++ [e4.description]
      else []
    { outputs := outputs, published := some e4 }

/-- The keep/drop decision of `logger.log` as a standalone predicate: an
entry is dropped exactly when the effective level is NONE, or INFO facing a
DEBUG entry, or ERROR facing a non-ERROR entry. -/
def drops (envLevel entryLevel : String) : Prop :=
  effectiveLevel envLevel = "NONE"
  ∨ (effectiveLevel envLevel = "INFO" ∧ entryLevel = "DEBUG")
  ∨ (effectiveLevel envLevel = "ERROR" ∧ entryLevel ≠ "ERROR")

instance (a b : String) : Decidable (drops a b) := by
  unfold drops
  infer_instance

/-- `Entry` plus a level gives the `model.LogEntry` built by `D`/`E`/`F`/`I`. -/
def toLogEntry (level : String) (e : Entry) : LogEntry :=
  { action := e.action, description := e.description,
    errorCode := e.errorCode, level := level, serviceName := e.serviceName }

namespace Logger

/-- `logger.D`: builds a DEBUG-level `model.LogEntry` and forwards the
payload list to `log`. -/
def D (l : LoggerState) (envLevel : String) (entry : Entry)
    (data : List GoVal) : LogResult :=
  logStep l envLevel (toLogEntry "DEBUG" entry) data

/-- `logger.E`: builds an ERROR-level `model.LogEntry`; the variadic
payloads are accepted but not passed on to `log`. -/
def E (l : LoggerState) (envLevel : String) (entry : Entry)
    (_data : List GoVal) : LogResult :=
  logStep l envLevel (toLogEntry "ERROR" entry) []

/-- `logger.F`: the same payload-discarding ERROR-level call; the subsequent
`os.Exit(1)` is a process-level effect outside the embedding. -/
def F (l : LoggerState) (envLevel : String) (entry : Entry)
    (_data : List GoVal) : LogResult :=
  logStep l envLevel (toLogEntry "ERROR" entry) []

/-- `logger.I`: builds an INFO-level `model.LogEntry`; the variadic payloads
are accepted but not passed on to `log`. -/
def I (l : LoggerState) (envLevel : String) (entry : Entry)
    (_data : List GoVal) : LogResult :=
  logStep l envLevel (toLogEntry "INFO" entry) []

end Logger

/-- A sequence of `log` calls against a fixed state and environment value;
the result is the concatenated list of output-writer writes. -/
def runCalls (l : LoggerState) (envLevel : String)
    (calls : List (LogEntry × List GoVal)) : List String :=
  (calls.map fun c => (logStep l envLevel c.1 c.2).outputs).flatten

/-- The state-mutating operations of the `Logger` interface. -/
inductive LoggerOp where
  | setArrayThreshold : Int → LoggerOp
  | setAction : String → LoggerOp
  | disableOutput : LoggerOp
  | enableOutput : LoggerOp
deriving DecidableEq, Repr

/-- `SetArrayThreshold`, `SetAction`, `DisableOutput` and `EnableOutput` from
`log/logger.go`; `SetArrayThreshold` updates the threshold only when
`threshold > 0`. -/
def applyOp (l : LoggerState) : LoggerOp → LoggerState
  | .setArrayThreshold t => if 0 < t then { l with arrThreshold := t } else l
  | .setAction a => { l with action := a }
  | .disableOutput => { l with enableOutput := false }
  | .enableOutput => { l with enableOutput := true }

/-- `kafka.ProducerConfig` of the external broker client, reduced to the one
field the tests populate. -/
structure ProducerConfig where
  kafkaBrokers : List String
deriving DecidableEq, Repr

/-- `Init` from the package root (src/unnamed/part_001): the synchronous
validation sequence and the constructed logger state.  Producer creation
(`kafka.NewProducer`) and the two background goroutines are external
collaborators and are outside the model; producer creation is assumed to
succeed, since its failure is an external error, not argument validation.
Note the source's first validation tests `topic` while reporting
`"empty svcName provided"`; `svcName` itself is never validated. -/
def Init (svcName : String) (config : Option ProducerConfig)
    (topic : String) : Except String LoggerState :=
  if topic = "" then .error "empty svcName provided"
  else if config.isNone then .error "nil config provided"
  else if topic = "" then .error "empty topic provided"
  else .ok { enableOutput := true, arrThreshold := 15, action := "",
             svcName := svcName }

/-- The effective level is always one of the four recognized values. -/
theorem effectiveLevel_cases (s : String) :
    effectiveLevel s = "INFO" ∨ effectiveLevel s = "ERROR"
      ∨ effectiveLevel s = "DEBUG" ∨ effectiveLevel s = "NONE" := by
  unfold effectiveLevel invalidLevel
  by_cases h1 : s = "INFO" <;> by_cases h2 : s = "ERROR" <;>
    by_cases h3 : s = "DEBUG" <;> by_cases h4 : s = "NONE" <;>
      simp [h1, h2, h3, h4]

/-- C1: for every configured level L in \x7bDEBUG, INFO, ERROR, NONE\x7d and
every entry level E in \x7bDEBUG, INFO, ERROR\x7d, `log` drops the entry
(publishes nothing) exactly per the spec table, and a dropped entry is also
never written to the output stream. -/
theorem c1_filter_table (l : LoggerState) (env : String) (e : LogEntry)
    (data : List GoVal)
    (henv : env = "DEBUG" ∨ env = "INFO" ∨ env = "ERROR" ∨ env = "NONE")
    (hlvl : e.level = "DEBUG" ∨ e.level = "INFO" ∨ e.level = "ERROR") :
    ((logStep l env e data).published = none ↔
      (env = "NONE" ∨ (env = "INFO" ∧ e.level = "DEBUG")
        ∨ (env = "ERROR" ∧ e.level ≠ "ERROR")))
    ∧ ((logStep l env e data).published = none →
        (logStep l env e data).outputs = []) := by
  rcases henv with h | h | h | h <;> subst h <;>
    rcases hlvl with h | h | h <;>
      simp [logStep, effectiveLevel, invalidLevel, h]

/-- Witness for C1: configured level INFO drops a DEBUG entry. -/
theorem c1_filter_table_witness :
    ((logStep { enableOutput := true, arrThreshold := 15, action := "",
                svcName := "svc" } "INFO"
        { action := "a", description := "d", errorCode := 0,
          level := "DEBUG", serviceName := "s" } []).published = none ↔
      (("INFO" : String) = "NONE"
        ∨ (("INFO" : String) = "INFO" ∧ ("DEBUG" : String) = "DEBUG")
        ∨ (("INFO" : String) = "ERROR" ∧ ("DEBUG" : String) ≠ "ERROR")))
    ∧ ((logStep { enableOutput := true, arrThreshold := 15, action := "",
                  svcName := "svc" } "INFO"
        { action := "a", description := "d", errorCode := 0,
          level := "DEBUG", serviceName := "s" } []).published = none →
        (logStep { enableOutput := true, arrThreshold := 15, action := "",
                   svcName := "svc" } "INFO"
        { action := "a", description := "d", errorCode := 0,
          level := "DEBUG", serviceName := "s" } []).outputs = []) :=
  c1_filter_table _ "INFO" _ [] (Or.inr (Or.inl rfl)) (Or.inl rfl)

/-- C5: `Init` accepts an empty default service name when the other
arguments are valid (the first validation tests `topic` but reports
`"empty svcName provided"`), while nil config and empty topic do error. -/
theorem c5_init_unchecked_svcname :
    Init "" (some ⟨[]⟩) "test-topic" = Except.ok ⟨true, 15, "", ""⟩
    ∧ Init "testsvc" none "test-topic" = Except.error "nil config provided"
    ∧ Init "testsvc" (some ⟨[]⟩) "" = Except.error "empty svcName provided" :=
  ⟨rfl, rfl, rfl⟩

/-- C6: a kept entry is published with an empty service name replaced by the
instance default and an empty action replaced by the default action, and a
dropped entry is forwarded nowhere (no publish, no output, no defaulting). -/
theorem c6_default_filling (l : LoggerState) (env : String) (e : LogEntry)
    (data : List GoVal) :
    (¬ drops env e.level →
      ∃ pub, (logStep l env e data).published = some pub
        ∧ pub.serviceName
            = (if e.serviceName = "" then l.svcName else e.serviceName)
        ∧ pub.action = (if e.action = "" then l.action else e.action))
    ∧ (drops env e.level →
        (logStep l env e data).published = none
          ∧ (logStep l env e data).outputs = []) := by
  constructor
  · intro h
    have hc1 : ¬ effectiveLevel env = "NONE" := fun hh => h (Or.inl hh)
    have hc2 : ¬ (effectiveLevel env = "INFO" ∧ e.level = "DEBUG") :=
      fun hh => h (Or.inr (Or.inl hh))
    have hc3 : ¬ (effectiveLevel env = "ERROR" ∧ e.level ≠ "ERROR") :=
      fun hh => h (Or.inr (Or.inr hh))
    by_cases hs : e.serviceName = "" <;> by_cases ha : e.action = "" <;>
      by_cases hd : effectiveLevel env = "DEBUG" <;>
        simp [logStep, hc1, hc2, hc3, hs, ha, hd]
  · intro h
    rcases h with h | h | h
    · simp [logStep, h]
    · simp [logStep, h.1, h.2]
    · simp [logStep, h.1, h.2]

/-- Witness for C6: empty service name and action on the entry are replaced
by the instance defaults "svcA" and "defaultAct". -/
theorem c6_default_filling_witness :
    ∃ pub, (logStep ⟨true, 15, "defaultAct", "svcA"⟩ "INFO"
        ⟨"", "d", 0, "INFO", ""⟩ []).published = some pub
      ∧ pub.serviceName = (if ("" : String) = "" then "svcA" else "")
      ∧ pub.action = (if ("" : String) = "" then "defaultAct" else "") :=
  (c6_default_filling ⟨true, 15, "defaultAct", "svcA"⟩ "INFO"
      ⟨"", "d", 0, "INFO", ""⟩ []).1 (by decide)

/-- C7 counterexample: two successive calls under an invalid configured
level each write the misconfiguration warning, so the warning appears twice
in the combined local output, not one time only. -/
theorem c7_counterexample :
    (runCalls ⟨true, 15, "", "svc"⟩ "INVALID"
        [(⟨"a", "d", 0, "INFO", "s"⟩, []),
         (⟨"a", "d", 0, "INFO", "s"⟩, [])]).count logLevelWarning = 2 := by
  rfl

/-- C7 amended: with an unset or unrecognized configured level, every call
publishes exactly what it would under INFO; the warning is written to the
local output ahead of the entry on every such emitted call (never into the
published payload), and with output disabled nothing is written. -/
theorem c7_invalid_level_warning (l : LoggerState) (env : String)
    (e : LogEntry) (data : List GoVal) (hinv : invalidLevel env = true) :
    (logStep l env e data).published = (logStep l "INFO" e data).published
    ∧ ((logStep l env e data).published ≠ none → l.enableOutput = true →
        (logStep l env e data).outputs
          = logLevelWarning :: (logStep l "INFO" e data).outputs)
    ∧ (l.enableOutput = false → (logStep l env e data).outputs = []) := by
  have heff : effectiveLevel env = "INFO" := by
    simp [effectiveLevel, hinv]
  have heffI : effectiveLevel "INFO" = "INFO" := rfl
  have hinvI : invalidLevel "INFO" = false := rfl
  by_cases hdbg : e.level = "DEBUG" <;> cases ho : l.enableOutput <;>
    simp [logStep, heff, heffI, hinv, hinvI, hdbg, ho]

/-- Witness for the amended C7 at configured level "BOGUS". -/
theorem c7_invalid_level_warning_witness :
    (logStep ⟨true, 15, "", "svc"⟩ "BOGUS"
        ⟨"a", "d", 0, "INFO", "s"⟩ []).published
      = (logStep ⟨true, 15, "", "svc"⟩ "INFO"
        ⟨"a", "d", 0, "INFO", "s"⟩ []).published
    ∧ ((logStep ⟨true, 15, "", "svc"⟩ "BOGUS"
        ⟨"a", "d", 0, "INFO", "s"⟩ []).published ≠ none →
        (true : Bool) = true →
        (logStep ⟨true, 15, "", "svc"⟩ "BOGUS"
          ⟨"a", "d", 0, "INFO", "s"⟩ []).outputs
          = logLevelWarning :: (logStep ⟨true, 15, "", "svc"⟩ "INFO"
              ⟨"a", "d", 0, "INFO", "s"⟩ []).outputs)
    ∧ ((true : Bool) = false →
        (logStep ⟨true, 15, "", "svc"⟩ "BOGUS"
          ⟨"a", "d", 0, "INFO", "s"⟩ []).outputs = []) :=
  c7_invalid_level_warning ⟨true, 15, "", "svc"⟩ "BOGUS"
    ⟨"a", "d", 0, "INFO", "s"⟩ [] (by decide)

/-- C8 counterexample: an entry whose Level field is "NONE" is published and
written to the output stream when the configured level is DEBUG; the
canonical `log` contains no sentinel check. -/
theorem c8_counterexample :
    ((logStep ⟨true, 15, "", "svc"⟩ "DEBUG"
        ⟨"a", "d", 0, "NONE", "s"⟩ []).published).isSome = true
    ∧ (logStep ⟨true, 15, "", "svc"⟩ "DEBUG"
        ⟨"a", "d", 0, "NONE", "s"⟩ []).outputs ≠ [] := by
  exact ⟨rfl, by decide⟩

/-- C8 amended: an entry with the sentinel Level "NONE" receives no special
treatment: it is dropped exactly when the effective configured level is NONE
or ERROR, and otherwise published like any non-DEBUG entry. -/
theorem c8_sentinel_level (l : LoggerState) (env : String) (e : LogEntry)
    (data : List GoVal) (h : e.level = "NONE") :
    ((logStep l env e data).published = none ↔
      (effectiveLevel env = "NONE" ∨ effectiveLevel env = "ERROR")) := by
  rcases effectiveLevel_cases env with hv | hv | hv | hv <;>
    simp [logStep, hv, h]

/-- Witness for the amended C8: a "NONE"-level entry under configured ERROR. -/
theorem c8_sentinel_level_witness :
    ((logStep ⟨true, 15, "", "svc"⟩ "ERROR"
        ⟨"a", "d", 0, "NONE", "s"⟩ []).published = none ↔
      (effectiveLevel "ERROR" = "NONE" ∨ effectiveLevel "ERROR" = "ERROR")) :=
  c8_sentinel_level ⟨true, 15, "", "svc"⟩ "ERROR"
    ⟨"a", "d", 0, "NONE", "s"⟩ [] rfl

/-- C10: `E`, `F` and `I` discard the attached payload list entirely (their
results do not depend on it), while `D` hands the payloads to the debug
formatter: under configured DEBUG, `D` publishes a description built by
`fmtDebug` from its payloads, whereas `E` publishes the no-payload format. -/
theorem c10_payload_discard :
    (∀ (l : LoggerState) (env : String) (e : Entry) (d1 d2 : List GoVal),
        Logger.E l env e d1 = Logger.E l env e d2
        ∧ Logger.F l env e d1 = Logger.F l env e d2
        ∧ Logger.I l env e d1 = Logger.I l env e d2)
    ∧ (∀ (l : LoggerState) (e : Entry) (dd : List GoVal),
        ∃ pub, (Logger.D l "DEBUG" e dd).published = some pub
          ∧ pub.description
              = fmtDebug e.description l.arrThreshold dd ++ "\n")
    ∧ (∀ (l : LoggerState) (e : Entry) (dd : List GoVal),
        ∃ pub, (Logger.E l "DEBUG" e dd).published = some pub
          ∧ pub.description
              = fmtDebug e.description l.arrThreshold [] ++ "\n") := by
  refine ⟨fun l env e d1 d2 => ⟨rfl, rfl, rfl⟩, ?_, ?_⟩
  · intro l e dd
    by_cases hs : e.serviceName = "" <;> by_cases ha : e.action = "" <;>
      simp [Logger.D, logStep, effectiveLevel, invalidLevel, toLogEntry,
        hs, ha]
  · intro l e dd
    by_cases hs : e.serviceName = "" <;> by_cases ha : e.action = "" <;>
      simp [Logger.E, logStep, effectiveLevel, invalidLevel, toLogEntry,
        hs, ha]

/-- `SetArrayThreshold` and the other interface operations preserve a
positive array threshold. -/
theorem applyOp_pos (l : LoggerState) (op : LoggerOp)
    (h : 0 < l.arrThreshold) : 0 < (applyOp l op).arrThreshold := by
  cases op with
  | setArrayThreshold t =>
      by_cases ht : 0 < t
      · simp [applyOp, ht]
      · simpa [applyOp, ht] using h
  | setAction a => simpa [applyOp] using h
  | disableOutput => simpa [applyOp] using h
  | enableOutput => simpa [applyOp] using h

/-- Positivity of the threshold is preserved by any sequence of interface
operations. -/
theorem foldl_applyOp_pos (ops : List LoggerOp) (l : LoggerState)
    (h : 0 < l.arrThreshold) : 0 < (ops.foldl applyOp l).arrThreshold := by
  induction ops generalizing l with
  | nil => simpa using h
  | cons op ops ih => exact ih _ (applyOp_pos l op h)

/-- C9: a successfully constructed logger starts with array threshold 15 and
keeps a strictly positive threshold across every sequence of interface
operations; `SetArrayThreshold t` updates the threshold exactly when
`t > 0` and is a no-op for `t ≤ 0`. -/
theorem c9_threshold_invariant :
    (∀ svc cfg topic st, Init svc cfg topic = Except.ok st →
        st.arrThreshold = 15
          ∧ ∀ ops : List LoggerOp, 0 < (ops.foldl applyOp st).arrThreshold)
    ∧ (∀ (l : LoggerState) (t : Int), 0 < t →
        (applyOp l (.setArrayThreshold t)).arrThreshold = t)
    ∧ (∀ (l : LoggerState) (t : Int), t ≤ 0 →
        applyOp l (.setArrayThreshold t) = l) := by
  refine ⟨?_, ?_, ?_⟩
  · intro svc cfg topic st h
    by_cases h1 : topic = ""
    · simp [Init, h1] at h
    · by_cases h2 : cfg.isNone
      · simp [Init, h1, h2] at h
      · simp [Init, h1, h2] at h
        subst h
        exact ⟨rfl, fun ops => foldl_applyOp_pos ops _ (by norm_num)⟩
  · intro l t ht
    simp [applyOp, ht]
  · intro l t ht
    simp [applyOp, not_lt.mpr ht]

/-- Witness for C9: a freshly constructed state run through a rejected
non-positive update and an accepted positive one keeps a positive threshold. -/
theorem c9_threshold_invariant_witness :
    (⟨true, 15, "", "svc"⟩ : LoggerState).arrThreshold = 15
    ∧ 0 < ([LoggerOp.setArrayThreshold 0, LoggerOp.setArrayThreshold 7].foldl
        applyOp (⟨true, 15, "", "svc"⟩ : LoggerState)).arrThreshold :=
  ⟨(c9_threshold_invariant.1 "svc" (some ⟨[]⟩) "t" ⟨true, 15, "", "svc"⟩
      rfl).1,
   (c9_threshold_invariant.1 "svc" (some ⟨[]⟩) "t" ⟨true, 15, "", "svc"⟩
      rfl).2 [LoggerOp.setArrayThreshold 0, LoggerOp.setArrayThreshold 7]⟩

/-- A parsed JSON value, modelling the opaque `[]byte` payloads handed to
`parseESModels`. -/
inductive Json where
  | jnull : Json
  | jbool : Bool → Json
  | jnum : Int → Json
  | jstr : String → Json
  | jarr : List Json → Json
  | jobj : List (String × Json) → Json

/-- A `[]byte` JSON payload: its raw text together with its parse result
(`none` when the bytes are not valid JSON).  `json.Unmarshal` into a generic
string-keyed map succeeds exactly when the payload parses to an object, and
into a generic slice exactly when it parses to an array. -/
structure Bytes where
  raw : String
  parsed : Option Json

/-- Modelled from the spec: the JSON value kinds of the fields of the known
wrapper shapes of go-common-models (`model.Document`, `model.Command`,
`model.Event`), which are an external dependency, not code of this
repository.  Text-like fields (strings, UUIDs, base64 byte payloads)
unmarshal from JSON strings; numeric fields from JSON numbers. -/
inductive JKind where
  | kstr : JKind
  | knum : JKind
deriving DecidableEq, Repr

/-- Whether a JSON value unmarshals into a Go field of the given kind
without error; JSON null unmarshals into any Go field without error. -/
def typeChecks : JKind → Json → Bool
  | _, .jnull => true
  | .kstr, .jstr _ => true
  | .knum, .jnum _ => true
  | _, _ => false

/-- Modelled from the spec: field names and kinds of `model.Document`, the
smallest known wrapper shape (7 fields, as rendered by `fmtKnownTypes`). -/
def docFields : List (String × JKind) :=
  [("correlationId", .kstr), ("data", .kstr), ("error", .kstr),
   ("errorCode", .knum), ("source", .kstr), ("topic", .kstr),
   ("uuid", .kstr)]

/-- Modelled from the spec: field names and kinds of `model.Command`
(9 fields). -/
def cmdFields : List (String × JKind) :=
  [("action", .kstr), ("correlationId", .kstr), ("data", .kstr),
   ("responseTopic", .kstr), ("source", .kstr), ("sourceTopic", .kstr),
   ("timestamp", .knum), ("ttlSec", .knum), ("uuid", .kstr)]

/-- Modelled from the spec: field names and kinds of `model.Event`, the
largest known wrapper shape (10 fields). -/
def eventFields : List (String × JKind) :=
  [("action", .kstr), ("aggregateID", .knum), ("correlationID", .kstr),
   ("data", .kstr), ("nanoTime", .knum), ("source", .kstr),
   ("userUUID", .kstr), ("uuid", .kstr), ("version", .knum),
   ("yearBucket", .knum)]

/-- `getTags` from `log/log_util.go`: the JSON field-name list of a shape. -/
def getTags (fields : List (String × JKind)) : List String :=
  fields.map Prod.fst

/-- The structural-match loop of `parseESModels`: every key of the decoded
generic map must be among the shape's JSON field names
(`commonutil.IsElementInSlice`). -/
def keysSubset (m : List (String × Json)) (tags : List String) : Bool :=
  m.all fun kv => tags.contains kv.1

/-- Modelled from the spec: `json.Unmarshal` of a decoded object into a
known wrapper struct.  Keys absent from the shape are ignored by Go's
unmarshaller; a present key must carry a value of the field's kind (or
null), otherwise unmarshalling fails.  A successful decode is represented
by the field assignment itself. -/
def decodeShape (fields : List (String × JKind))
    (m : List (String × Json)) : Option (List (String × Json)) :=
  if m.all (fun kv =>
      match fields.find? (fun f => f.1 == kv.1) with
      | some f => typeChecks f.2 kv.2
      | none => true)
  then some m else none

/-- The result of `parseESModels`: the raw payload text, a decoded known
wrapper shape (tagged with its name), the element list of an array payload,
or the generic decoded map.  In the source the array elements and the
fallback map pass through `fmtKnownTypes`, which is the identity on them:
its `model.Command`/`model.Document`/`model.Event` cases dispatch on Go
dynamic types that values produced by `json.Unmarshal` into generic maps
can never carry. -/
inductive Parsed where
  | rawText : String → Parsed
  | shaped : String → List (String × Json) → Parsed
  | elems : List Json → Parsed
  | generic : Json → Parsed

/-- `parseESModels` from `log/log_util.go`: unmarshal the payload into a
generic map; on failure retry as an array and render element-wise (raw text
when that fails too or the array is empty); otherwise test the key set
against the Document, Command and Event shapes in that
smallest-to-largest order (`switch true` takes the first structural match
only), attempt to decode that shape, and fall back to the generic map when
no shape matches structurally or the one attempted decode fails. -/
def parseESModels (jsonBytes : Bytes) (arrThreshold : Int) : Parsed :=
  match jsonBytes.parsed with
  | some (.jobj m) =>
      if keysSubset m (getTags docFields) then
        match decodeShape docFields m with
        | some doc => .shaped "Document" doc
        | none => .generic (.jobj m)
      else if keysSubset m (getTags cmdFields) then
        match decodeShape cmdFields m with
        | some cmd => .shaped "Command" cmd
        | none => .generic (.jobj m)
      else if keysSubset m (getTags eventFields) then
        match decodeShape eventFields m with
        | some event => .shaped "Event" event
        | none => .generic (.jobj m)
      else .generic (.jobj m)
  | some (.jarr xs) =>
      if xs.length = 0 then .rawText jsonBytes.raw
      else .elems xs
  | _ => .rawText jsonBytes.raw

/-- C4: the reparser tests the decoded map's key set against the known
shapes smallest-to-largest (Document 7 < Command 9 < Event 10 fields) and
returns the decoded form of the first structurally matching shape whose
decode succeeds, so such a payload resolves to a shape, not raw bytes; with
no structural match the generic map is rendered; an array payload is
rendered element-by-element; an undecodable payload falls back to its raw
text. -/
theorem c4_parse_es_models :
    ((getTags docFields).length < (getTags cmdFields).length
      ∧ (getTags cmdFields).length < (getTags eventFields).length)
    ∧ (∀ (b : Bytes) (t : Int) (m : List (String × Json)),
        b.parsed = some (.jobj m) →
        ((∀ d, keysSubset m (getTags docFields) = true →
            decodeShape docFields m = some d →
            parseESModels b t = .shaped "Document" d)
        ∧ (keysSubset m (getTags docFields) = false →
            ∀ c, keysSubset m (getTags cmdFields) = true →
            decodeShape cmdFields m = some c →
            parseESModels b t = .shaped "Command" c)
        ∧ (keysSubset m (getTags docFields) = false →
            keysSubset m (getTags cmdFields) = false →
            ∀ ev, keysSubset m (getTags eventFields) = true →
            decodeShape eventFields m = some ev →
            parseESModels b t = .shaped "Event" ev)
        ∧ (keysSubset m (getTags docFields) = false →
            keysSubset m (getTags cmdFields) = false →
            keysSubset m (getTags eventFields) = false →
            parseESModels b t = .generic (.jobj m))))
    ∧ (∀ (b : Bytes) (t : Int) (xs : List Json),
        b.parsed = some (.jarr xs) → xs ≠ [] →
        parseESModels b t = .elems xs)
    ∧ (∀ (b : Bytes) (t : Int), b.parsed = none →
        parseESModels b t = .rawText b.raw) := by
  refine ⟨⟨by norm_num [getTags, docFields, cmdFields, eventFields],
          by norm_num [getTags, docFields, cmdFields, eventFields]⟩,
        ?_, ?_, ?_⟩
  · intro b t m hb
    refine ⟨?_, ?_, ?_, ?_⟩
    · intro d hsub hdec
      simp [parseESModels, hb, hsub, hdec]
    · intro h1 c hsub hdec
      simp [parseESModels, hb, h1, hsub, hdec]
    · intro h1 h2 ev hsub hdec
      simp [parseESModels, hb, h1, h2, hsub, hdec]
    · intro h1 h2 h3
      simp [parseESModels, hb, h1, h2, h3]
  · intro b t xs hb hne
    simp [parseESModels, hb, hne]
  · intro b t hb
    simp [parseESModels, hb]

/-- Witness for C4: a payload whose keys form a subset of the Document
field set decodes to the Document shape. -/
theorem c4_parse_es_models_witness :
    parseESModels
        ⟨"x", some (.jobj [("source", .jstr "s1"), ("topic", .jstr "t1")])⟩
        15
      = .shaped "Document" [("source", .jstr "s1"), ("topic", .jstr "t1")] :=
  ((c4_parse_es_models.2.1
      ⟨"x", some (.jobj [("source", .jstr "s1"), ("topic", .jstr "t1")])⟩
      15 [("source", .jstr "s1"), ("topic", .jstr "t1")] rfl).1
    [("source", .jstr "s1"), ("topic", .jstr "t1")] rfl rfl)
